import Mathlib

/-!
Shallow embedding of the data-access module `src/lib/health-data.ts` of the
health-tracking dashboard, together with the dashboard-load initialization
effect of `src/app/page.tsx`.

Modelling conventions:
* The browser environment is a `BrowserState`: a flag `windowDefined`
  (`typeof window !== 'undefined'`) plus the parsed content stored under each
  of the module's four localStorage keys.  The four keys are distinct string
  constants (proved below), which justifies keeping one typed field per key.
* Stateful functions take the state and return `result × BrowserState`.
* `uuidv4()` and the clock (`new Date()`) are modelled as explicit parameters
  (`newId`, `today`, `nowISO`, `dateOf`, ...): the code treats them as opaque
  sources of strings.
* `Math.random()` draws are modelled by explicit per-day records of rational
  draws (`DayRand`), consumed exactly where the source consumes a draw.
* Numeric values are rationals; JS numbers in this module are used only for
  literals, `+`, `*` and comparisons, where `ℚ` agrees.
-/

inductive MetricType where
  | weight
  | blood_pressure_systolic
  | blood_pressure_diastolic
  | heart_rate
  | steps
  | calories_burned
  | sleep_hours
  | water_intake
deriving DecidableEq, Repr

structure HealthMetric where
  id : String
  date : String
  value : ℚ
  type : MetricType
  unit : String
deriving DecidableEq, Repr

inductive Meal where
  | breakfast
  | lunch
  | dinner
  | snack
deriving DecidableEq, Repr

structure NutritionEntry where
  id : String
  date : String
  meal : Meal
  food : String
  calories : ℚ
  protein : ℚ
  carbs : ℚ
  fat : ℚ
deriving DecidableEq, Repr

inductive ActivityType where
  | running
  | walking
  | cycling
  | swimming
  | strength
  | yoga
  | other
deriving DecidableEq, Repr

structure Activity where
  id : String
  date : String
  type : ActivityType
  duration : ℚ
  calories : ℚ
  notes : Option String
deriving DecidableEq, Repr

inductive GoalType where
  | weight
  | steps
  | exercise
  | nutrition
  | sleep
  | water
deriving DecidableEq, Repr, Inhabited

structure Goal where
  id : String
  title : String
  type : GoalType
  target : ℚ
  current : ℚ
  unit : String
  deadline : String
  createdAt : String
deriving DecidableEq, Repr, Inhabited

/-- Input of `addHealthMetric`: `Omit<HealthMetric, 'id'>`. -/
structure HealthMetricInput where
  date : String
  value : ℚ
  type : MetricType
  unit : String
deriving DecidableEq, Repr

/-- Input of `addNutritionEntry`: `Omit<NutritionEntry, 'id'>`. -/
structure NutritionEntryInput where
  date : String
  meal : Meal
  food : String
  calories : ℚ
  protein : ℚ
  carbs : ℚ
  fat : ℚ
deriving DecidableEq, Repr

/-- Input of `addActivity`: `Omit<Activity, 'id'>`. -/
structure ActivityInput where
  date : String
  type : ActivityType
  duration : ℚ
  calories : ℚ
  notes : Option String
deriving DecidableEq, Repr

/-- Input of `addGoal`: `Omit<Goal, 'id' | 'createdAt'>`. -/
structure GoalInput where
  title : String
  type : GoalType
  target : ℚ
  current : ℚ
  unit : String
  deadline : String
deriving DecidableEq, Repr

/-- Argument of `updateGoal`: `Partial<Goal>` — each field optionally present. -/
structure GoalUpdates where
  id : Option String := none
  title : Option String := none
  type : Option GoalType := none
  target : Option ℚ := none
  current : Option ℚ := none
  unit : Option String := none
  deadline : Option String := none
  createdAt : Option String := none
deriving DecidableEq, Repr

/-- The browser environment: whether `window` is defined, and the parsed
array stored under each of the module's four localStorage keys (an absent
key is the empty array, exactly as `getFromStorage` parses it). -/
structure BrowserState where
  windowDefined : Bool
  healthMetricsStore : List HealthMetric
  nutritionEntriesStore : List NutritionEntry
  activitiesStore : List Activity
  goalsStore : List Goal
deriving DecidableEq, Repr

def HEALTH_METRICS_KEY : String := "health-metrics"

def NUTRITION_ENTRIES_KEY : String := "nutrition-entries"

def ACTIVITIES_KEY : String := "activities"

def GOALS_KEY : String := "goals"

/-- Embeds `getFromStorage(HEALTH_METRICS_KEY)` via `getHealthMetrics`:
returns `[]` when `typeof window === 'undefined'`. -/
def getHealthMetrics (s : BrowserState) : List HealthMetric :=
  if s.windowDefined then s.healthMetricsStore else []

/-- Embeds `saveToStorage(HEALTH_METRICS_KEY, data)`: a no-op when
`typeof window === 'undefined'`. -/
def saveHealthMetrics (s : BrowserState) (data : List HealthMetric) : BrowserState :=
  if s.windowDefined then { s with healthMetricsStore := data } else s

/-- Embeds `getFromStorage(NUTRITION_ENTRIES_KEY)` via `getNutritionEntries`. -/
def getNutritionEntries (s : BrowserState) : List NutritionEntry :=
  if s.windowDefined then s.nutritionEntriesStore else []

/-- Embeds `saveToStorage(NUTRITION_ENTRIES_KEY, data)`. -/
def saveNutritionEntries (s : BrowserState) (data : List NutritionEntry) : BrowserState :=
  if s.windowDefined then { s with nutritionEntriesStore := data } else s

/-- Embeds `getFromStorage(ACTIVITIES_KEY)` via `getActivities`. -/
def getActivities (s : BrowserState) : List Activity :=
  if s.windowDefined then s.activitiesStore else []

/-- Embeds `saveToStorage(ACTIVITIES_KEY, data)`. -/
def saveActivities (s : BrowserState) (data : List Activity) : BrowserState :=
  if s.windowDefined then { s with activitiesStore := data } else s

/-- Embeds `getFromStorage(GOALS_KEY)` via `getGoals`. -/
def getGoals (s : BrowserState) : List Goal :=
  if s.windowDefined then s.goalsStore else []

/-- Embeds `saveToStorage(GOALS_KEY, data)`. -/
def saveGoals (s : BrowserState) (data : List Goal) : BrowserState :=
  if s.windowDefined then { s with goalsStore := data } else s

/-- Embeds `addHealthMetric(metric)`; `newId` models the `uuidv4()` draw. -/
def addHealthMetric (newId : String) (metric : HealthMetricInput) (s : BrowserState) :
    HealthMetric × BrowserState :=
  let newMetric : HealthMetric :=
    { id := newId, date := metric.date, value := metric.value, type := metric.type,
      unit := metric.unit }
  let metrics := getHealthMetrics s
  (newMetric, saveHealthMetrics s (metrics ++ [newMetric]))

/-- Embeds `getLatestMetric(type)`: filter by type, then the last element of
the filtered array when it is nonempty, else `null`. -/
def getLatestMetric (t : MetricType) (s : BrowserState) : Option HealthMetric :=
  let filtered := (getHealthMetrics s).filter (fun m => m.type = t)
  if filtered.length > 0 then filtered.getLast? else none

/-- Embeds `addNutritionEntry(entry)`. -/
def addNutritionEntry (newId : String) (entry : NutritionEntryInput) (s : BrowserState) :
    NutritionEntry × BrowserState :=
  let newEntry : NutritionEntry :=
    { id := newId, date := entry.date, meal := entry.meal, food := entry.food,
      calories := entry.calories, protein := entry.protein, carbs := entry.carbs,
      fat := entry.fat }
  let entries := getNutritionEntries s
  (newEntry, saveNutritionEntries s (entries ++ [newEntry]))

/-- Embeds `getTodaysNutrition()`; `today` models
`new Date().toISOString().split('T')[0]`. -/
def getTodaysNutrition (today : String) (s : BrowserState) : List NutritionEntry :=
  (getNutritionEntries s).filter (fun entry => entry.date = today)

/-- Embeds `addActivity(activity)`. -/
def addActivity (newId : String) (activity : ActivityInput) (s : BrowserState) :
    Activity × BrowserState :=
  let newActivity : Activity :=
    { id := newId, date := activity.date, type := activity.type,
      duration := activity.duration, calories := activity.calories,
      notes := activity.notes }
  let activities := getActivities s
  (newActivity, saveActivities s (activities ++ [newActivity]))

/-- Embeds `getTodaysActivities()`. -/
def getTodaysActivities (today : String) (s : BrowserState) : List Activity :=
  (getActivities s).filter (fun activity => activity.date = today)

/-- Embeds `addGoal(goal)`; `nowISO` models `new Date().toISOString()`. -/
def addGoal (newId : String) (nowISO : String) (goal : GoalInput) (s : BrowserState) :
    Goal × BrowserState :=
  let newGoal : Goal :=
    { id := newId, title := goal.title, type := goal.type, target := goal.target,
      current := goal.current, unit := goal.unit, deadline := goal.deadline,
      createdAt := nowISO }
  let goals := getGoals s
  (newGoal, saveGoals s (goals ++ [newGoal]))

/-- Embeds the spread `{ ...goals[index], ...updates }`: every field present in
`updates` overwrites the stored field, `id` and `createdAt` included. -/
def mergeGoal (g : Goal) (u : GoalUpdates) : Goal :=
  { id := u.id.getD g.id, title := u.title.getD g.title, type := u.type.getD g.type,
    target := u.target.getD g.target, current := u.current.getD g.current,
    unit := u.unit.getD g.unit, deadline := u.deadline.getD g.deadline,
    createdAt := u.createdAt.getD g.createdAt }

/-- Embeds `updateGoal(id, updates)`: `findIndex` on `goal.id === id`, `null`
when `-1`, otherwise overwrite the found slot with the merged goal and save.
(`List.getD` at a `findIdx?`-returned index is always in range.) -/
def updateGoal (id : String) (updates : GoalUpdates) (s : BrowserState) :
    Option Goal × BrowserState :=
  let goals := getGoals s
  match goals.findIdx? (fun goal => goal.id = id) with
  | none => (none, s)
  | some index =>
      let updatedGoal := mergeGoal (goals.getD index default) updates
      (some updatedGoal, saveGoals s (goals.set index updatedGoal))

/-- Embeds `deleteGoal(id)`: keep the goals whose id differs, report `false`
and leave storage untouched when nothing was dropped. -/
def deleteGoal (id : String) (s : BrowserState) : Bool × BrowserState :=
  let goals := getGoals s
  let filteredGoals := goals.filter (fun goal => ¬ goal.id = id)
  if filteredGoals.length = goals.length then (false, s)
  else (true, saveGoals s filteredGoals)

/-- Per-meal `Math.random()` draws of `generateSampleData`: the food index
`Math.floor(Math.random() * 5)` and the four macro draws. -/
structure MealRand where
  foodIdx : ℕ
  caloriesR : ℚ
  proteinR : ℚ
  carbsR : ℚ
  fatR : ℚ
deriving Repr

/-- Per-day `Math.random()` draws of `generateSampleData`, in consumption
order: the three metric draws, the activity coin and its three draws, and the
three meal draw blocks. -/
structure DayRand where
  weightR : ℚ
  stepsR : ℚ
  sleepR : ℚ
  activityR : ℚ
  activityTypeIdx : ℕ
  durationR : ℚ
  activityCalR : ℚ
  breakfastR : MealRand
  lunchR : MealRand
  dinnerR : MealRand
deriving Repr

/-- Environment of `generateSampleData`: the clock and the nondeterministic
draws. `dateOf i` is the ISO date string of the day `i` days before today,
`freshId` is the `uuidv4()` supply, `rnd i` the draws made for day `i`,
`nowISO` is `new Date().toISOString()`, and `deadline90`/`deadline30` are the
date strings 90 and 30 days from now. -/
structure SampleEnv where
  dateOf : ℕ → String
  freshId : ℕ → String
  rnd : ℕ → DayRand
  nowISO : String
  deadline90 : String
  deadline30 : String

def sampleFoods : List String :=
  ["Oatmeal", "Chicken Salad", "Grilled Salmon", "Pasta", "Smoothie"]

def sampleActivityTypes : List ActivityType :=
  [ActivityType.running, ActivityType.walking, ActivityType.cycling, ActivityType.strength]

/-- One sample nutrition entry: the body of the `forEach` over
`['breakfast', 'lunch', 'dinner']` for day `i`, meal slot `slot`.
(`getD`'s default is never reached: `Math.floor(r * 5)` lies in `[0, 5)`.) -/
def sampleMealEntry (env : SampleEnv) (i slot : ℕ) (meal : Meal) (r : MealRand) :
    NutritionEntry :=
  { id := env.freshId (10 * i + 4 + slot), date := env.dateOf i, meal := meal,
    food := sampleFoods.getD r.foodIdx "Oatmeal",
    calories := 300 + r.caloriesR * 400, protein := 20 + r.proteinR * 30,
    carbs := 30 + r.carbsR * 50, fat := 10 + r.fatR * 20 }

/-- The three health metrics pushed for day `i` of the sample-data loop. -/
def sampleMetricsOfDay (env : SampleEnv) (i : ℕ) : List HealthMetric :=
  [ { id := env.freshId (10 * i), date := env.dateOf i, type := MetricType.weight,
      value := 70 + (env.rnd i).weightR * 5, unit := "kg" },
    { id := env.freshId (10 * i + 1), date := env.dateOf i, type := MetricType.steps,
      value := 8000 + (env.rnd i).stepsR * 4000, unit := "steps" },
    { id := env.freshId (10 * i + 2), date := env.dateOf i, type := MetricType.sleep_hours,
      value := 6 + (env.rnd i).sleepR * 3, unit := "hours" } ]

/-- The activities pushed for day `i`: one when `Math.random() > 0.3`, else
none. -/
def sampleActivitiesOfDay (env : SampleEnv) (i : ℕ) : List Activity :=
  if (3 : ℚ) / 10 < (env.rnd i).activityR then
    [ { id := env.freshId (10 * i + 3), date := env.dateOf i,
        type := sampleActivityTypes.getD (env.rnd i).activityTypeIdx ActivityType.running,
        duration := 30 + (env.rnd i).durationR * 60,
        calories := 200 + (env.rnd i).activityCalR * 300, notes := none } ]
  else []

/-- The three nutrition entries pushed for day `i`. -/
def sampleNutritionOfDay (env : SampleEnv) (i : ℕ) : List NutritionEntry :=
  [ sampleMealEntry env i 0 Meal.breakfast (env.rnd i).breakfastR,
    sampleMealEntry env i 1 Meal.lunch (env.rnd i).lunchR,
    sampleMealEntry env i 2 Meal.dinner (env.rnd i).dinnerR ]

/-- The day offsets visited by `for (let i = 6; i >= 0; i--)`, in loop order. -/
def sampleDays : List ℕ := [6, 5, 4, 3, 2, 1, 0]

def sampleMetrics (env : SampleEnv) : List HealthMetric :=
  sampleDays.flatMap (sampleMetricsOfDay env)

def sampleActivities (env : SampleEnv) : List Activity :=
  sampleDays.flatMap (sampleActivitiesOfDay env)

def sampleNutrition (env : SampleEnv) : List NutritionEntry :=
  sampleDays.flatMap (sampleNutritionOfDay env)

/-- The two fixed sample goals. -/
def sampleGoals (env : SampleEnv) : List Goal :=
  [ { id := env.freshId 100, title := "Lose 5kg", type := GoalType.weight, target := 65,
      current := 70, unit := "kg", deadline := env.deadline90, createdAt := env.nowISO },
    { id := env.freshId 101, title := "Walk 10,000 steps daily", type := GoalType.steps,
      target := 10000, current := 8500, unit := "steps", deadline := env.deadline30,
      createdAt := env.nowISO } ]

/-- Embeds `generateSampleData()`: build the four sample collections and save
each under its key, in source order. -/
def generateSampleData (env : SampleEnv) (s : BrowserState) : BrowserState :=
  saveGoals
    (saveNutritionEntries
      (saveActivities
        (saveHealthMetrics s (sampleMetrics env))
        (sampleActivities env))
      (sampleNutrition env))
    (sampleGoals env)

/-- Embeds the storage effect of the dashboard's mount hook in
`src/app/page.tsx`: generate sample data exactly when `getHealthMetrics()`
returns an empty array. -/
def dashboardInit (env : SampleEnv) (s : BrowserState) : BrowserState :=
  if (getHealthMetrics s).length = 0 then generateSampleData env s else s

/-- Lexicographic order on character lists by code point, used to compare ISO
date strings chronologically. -/
def charListLt : List Char → List Char → Bool
  | [], [] => false
  | [], _ :: _ => true
  | _ :: _, [] => false
  | a :: as, b :: bs =>
      if a.toNat < b.toNat then true
      else if b.toNat < a.toNat then false
      else charListLt as bs

/-- Modelled from the spec: chronological strict order on the ISO `YYYY-MM-DD`
date strings this module stores, which coincides with lexicographic string
order. Used only to state what "the measurement with the most recent date"
means; the source never compares dates. -/
def dateLt (a b : String) : Bool := charListLt a.data b.data

/-! Helper lemmas about lists, shared by several theorems below. -/

lemma filter_getLast?_decomp {α : Type _} (p : α → Bool) (l : List α) (m : α)
    (h : (l.filter p).getLast? = some m) :
    p m = true ∧ ∃ l₁ l₂, l = l₁ ++ m :: l₂ ∧ ∀ x ∈ l₂, p x = false := by
  induction l using List.reverseRecOn with
  | nil => simp at h
  | append_singleton t a ih =>
      rw [List.filter_append] at h
      by_cases hpa : p a = true
      · have hfa : List.filter p [a] = [a] := by simp [hpa]
        rw [hfa, List.getLast?_concat] at h
        obtain rfl : a = m := Option.some.inj h
        exact ⟨hpa, t, [], rfl, by simp⟩
      · have hfa : List.filter p [a] = [] := by simp [Bool.eq_false_iff.2 hpa]
        rw [hfa, List.append_nil] at h
        obtain ⟨hm, l₁, l₂, rfl, hl₂⟩ := ih h
        refine ⟨hm, l₁, l₂ ++ [a], by simp, ?_⟩
        intro x hx
        rcases List.mem_append.1 hx with h1 | h1
        · exact hl₂ x h1
        · obtain rfl : x = a := by simpa using h1
          exact Bool.eq_false_iff.2 hpa

lemma exists_first_match {α : Type _} (p : α → Bool) (l : List α) (g : α)
    (hg : g ∈ l) (hpg : p g = true) :
    ∃ l₁ g₀ l₂, l = l₁ ++ g₀ :: l₂ ∧ p g₀ = true ∧ ∀ x ∈ l₁, p x = false := by
  induction l with
  | nil => cases hg
  | cons a t ih =>
      by_cases hpa : p a = true
      · exact ⟨[], a, t, rfl, hpa, by simp⟩
      · rcases List.mem_cons.1 hg with rfl | hgt
        · exact absurd hpg hpa
        · obtain ⟨l₁, g₀, l₂, rfl, h1, h2⟩ := ih hgt
          refine ⟨a :: l₁, g₀, l₂, rfl, h1, ?_⟩
          intro x hx
          rcases List.mem_cons.1 hx with rfl | hx
          · exact Bool.eq_false_iff.2 hpa
          · exact h2 x hx

lemma findIdx?_first_match {α : Type _} (p : α → Bool) :
    ∀ (l₁ : List α) (g₀ : α) (l₂ : List α) (i : ℕ),
      (∀ x ∈ l₁, p x = false) → p g₀ = true →
      List.findIdx? p (l₁ ++ g₀ :: l₂) i = some (i + l₁.length) := by
  intro l₁
  induction l₁ with
  | nil =>
      intro g₀ l₂ i _ hp
      simp [List.findIdx?_cons, hp]
  | cons a t ih =>
      intro g₀ l₂ i hall hp
      have hpa : p a = false := hall a (List.mem_cons_self a t)
      rw [List.cons_append, List.findIdx?_cons, hpa]
      simp only [Bool.false_eq_true, if_false]
      rw [ih g₀ l₂ (i + 1) (fun x hx => hall x (List.mem_cons_of_mem a hx)) hp]
      congr 1
      simp
      omega

lemma set_append_cons {α : Type _} :
    ∀ (l₁ : List α) (a : α) (l₂ : List α) (b : α),
      (l₁ ++ a :: l₂).set l₁.length b = l₁ ++ b :: l₂ := by
  intro l₁
  induction l₁ with
  | nil => intro a l₂ b; rfl
  | cons c t ih =>
      intro a l₂ b
      show c :: (t ++ a :: l₂).set t.length b = c :: (t ++ b :: l₂)
      rw [ih]

lemma getD_append_cons {α : Type _} [Inhabited α] :
    ∀ (l₁ : List α) (a : α) (l₂ : List α),
      (l₁ ++ a :: l₂).getD l₁.length default = a := by
  intro l₁
  induction l₁ with
  | nil => intro a l₂; rfl
  | cons c t ih =>
      intro a l₂
      show (t ++ a :: l₂).getD t.length default = a
      exact ih a l₂

lemma filter_length_eq_iff {α : Type _} (p : α → Bool) (l : List α) :
    (l.filter p).length = l.length ↔ ∀ x ∈ l, p x = true := by
  constructor
  · intro h
    exact fun x hx => List.filter_eq_self.1 ((List.filter_sublist l).eq_of_length h) x hx
  · intro h
    rw [List.filter_eq_self.2 h]

lemma filter_flatMap_nil_of {α : Type _} (dval : α → String) (f : ℕ → List α) (q : String)
    (days : List ℕ) (h : ∀ i ∈ days, ∀ x ∈ f i, ¬ dval x = q) :
    (days.flatMap f).filter (fun x => dval x = q) = [] := by
  rw [List.filter_eq_nil_iff]
  intro a ha
  obtain ⟨i, hi, hai⟩ := List.mem_flatMap.1 ha
  simpa using h i hi a hai

lemma filter_flatMap_day {α : Type _} (dval : α → String) (f : ℕ → List α) (dOf : ℕ → String) :
    ∀ (days : List ℕ) (d : ℕ), d ∈ days → days.Nodup →
      (∀ i ∈ days, ∀ x ∈ f i, dval x = dOf i) →
      (∀ i ∈ days, ∀ j ∈ days, dOf i = dOf j → i = j) →
      (days.flatMap f).filter (fun x => dval x = dOf d) = f d := by
  intro days
  induction days with
  | nil => intro d hd; cases hd
  | cons a t ih =>
      intro d hd hnd hf hinj
      rw [List.flatMap_cons, List.filter_append]
      rcases List.mem_cons.1 hd with rfl | hdt
      · have h1 : (f d).filter (fun x => dval x = dOf d) = f d :=
          List.filter_eq_self.2 (fun x hx => by
            simp [hf d (List.mem_cons_self d t) x hx])
        have h2 : (t.flatMap f).filter (fun x => dval x = dOf d) = [] := by
          apply filter_flatMap_nil_of
          intro i hi x hx he
          have hde : dOf i = dOf d := by
            rw [← hf i (List.mem_cons_of_mem d hi) x hx]; exact he
          have hid : i = d :=
            hinj i (List.mem_cons_of_mem d hi) d (List.mem_cons_self d t) hde
          exact (List.nodup_cons.1 hnd).1 (hid ▸ hi)
        rw [h1, h2, List.append_nil]
      · have ha_ne : ¬ a = d := by
          intro he
          exact (List.nodup_cons.1 hnd).1 (he ▸ hdt)
        have h1 : (f a).filter (fun x => dval x = dOf d) = [] := by
          rw [List.filter_eq_nil_iff]
          intro x hx
          simp only [decide_eq_true_eq]
          intro he
          have hde : dOf a = dOf d := by
            rw [← hf a (List.mem_cons_self a t) x hx]; exact he
          exact ha_ne (hinj a (List.mem_cons_self a t) d hd hde)
        rw [h1, List.nil_append]
        exact ih d hdt (List.nodup_cons.1 hnd).2
          (fun i hi x hx => hf i (List.mem_cons_of_mem a hi) x hx)
          (fun i hi j hj => hinj i (List.mem_cons_of_mem a hi) j (List.mem_cons_of_mem a hj))

lemma getGoals_saveGoals (s : BrowserState) (l : List Goal) (hw : s.windowDefined = true) :
    getGoals (saveGoals s l) = l := by
  simp [getGoals, saveGoals, hw]

lemma getGoals_nonempty_window (s : BrowserState) (g : Goal) (hg : g ∈ getGoals s) :
    s.windowDefined = true := by
  by_contra hw
  rw [Bool.not_eq_true] at hw
  simp [getGoals, hw] at hg

lemma updateGoal_eq_of_decomp (s : BrowserState) (id : String) (u : GoalUpdates)
    (l₁ : List Goal) (g₀ : Goal) (l₂ : List Goal)
    (hdec : getGoals s = l₁ ++ g₀ :: l₂) (hfirst : ∀ x ∈ l₁, ¬ x.id = id)
    (hmatch : g₀.id = id) :
    (updateGoal id u s).fst = some (mergeGoal g₀ u) ∧
    getGoals (updateGoal id u s).snd = l₁ ++ mergeGoal g₀ u :: l₂ := by
  have hw : s.windowDefined = true :=
    getGoals_nonempty_window s g₀ (by rw [hdec]; exact List.mem_append_right l₁ (List.mem_cons_self g₀ l₂))
  obtain ⟨w, ms, ns, acts, gs⟩ := s
  simp only at hw
  subst hw
  have hgs : gs = l₁ ++ g₀ :: l₂ := by simpa [getGoals] using hdec
  subst hgs
  have hfidx : List.findIdx? (fun goal : Goal => goal.id = id) (l₁ ++ g₀ :: l₂) = some l₁.length := by
    simpa using findIdx?_first_match (fun goal : Goal => goal.id = id) l₁ g₀ l₂ 0
      (fun x hx => by simp [hfirst x hx]) (by simp [hmatch])
  have hget : (l₁ ++ g₀ :: l₂)[l₁.length]? = some g₀ := by
    rw [List.getElem?_append_right (le_refl _)]
    simp
  simp [updateGoal, getGoals, saveGoals, hfidx, hget, set_append_cons]

/-! Concrete records and states used by counterexamples and witnesses. -/

def cexMetricNewest : HealthMetric :=
  { id := "m-a", date := "2024-01-02", value := 70, type := MetricType.weight, unit := "kg" }

def cexMetricLast : HealthMetric :=
  { id := "m-b", date := "2024-01-01", value := 71, type := MetricType.weight, unit := "kg" }

def cexState : BrowserState :=
  { windowDefined := true, healthMetricsStore := [cexMetricNewest, cexMetricLast],
    nutritionEntriesStore := [], activitiesStore := [], goalsStore := [] }

def latestWitnessMetric : HealthMetric :=
  { id := "w1", date := "2024-02-03", value := 80, type := MetricType.steps, unit := "steps" }

def latestWitnessState : BrowserState :=
  { windowDefined := true, healthMetricsStore := [latestWitnessMetric],
    nutritionEntriesStore := [], activitiesStore := [], goalsStore := [] }

def goalA : Goal :=
  { id := "g1", title := "A", type := GoalType.weight, target := 65, current := 70,
    unit := "kg", deadline := "2024-06-01", createdAt := "2024-01-01" }

def goalB : Goal :=
  { id := "g2", title := "B", type := GoalType.steps, target := 10000, current := 8000,
    unit := "steps", deadline := "2024-05-01", createdAt := "2024-01-02" }

def goalB2 : Goal :=
  { id := "g2", title := "B2", type := GoalType.steps, target := 12000, current := 9000,
    unit := "steps", deadline := "2024-07-01", createdAt := "2024-01-03" }

def goalsState : BrowserState :=
  { windowDefined := true, healthMetricsStore := [], nutritionEntriesStore := [],
    activitiesStore := [], goalsStore := [goalA, goalB, goalB2] }

def updatesW : GoalUpdates :=
  { id := some "fresh", current := some 75, createdAt := some "2024-03-01" }

/-- Claim C1, counterexample: `getLatestMetric` returns the last *stored*
metric of the requested type, which need not be the one with the most recent
date.  In `cexState` the weight metric stored last (`cexMetricLast`, dated
2024-01-01) is returned although another stored weight metric
(`cexMetricNewest`, dated 2024-01-02) has a strictly more recent date. -/
theorem getLatestMetric_not_most_recent_date :
    getLatestMetric MetricType.weight cexState = some cexMetricLast ∧
    cexMetricNewest ∈ getHealthMetrics cexState ∧
    cexMetricNewest.type = MetricType.weight ∧
    dateLt cexMetricLast.date cexMetricNewest.date = true := by decide

/-- Claim C1, amended: for every metric type `t`, `getLatestMetric t` returns
`null` exactly when no stored metric has type `t`, and otherwise returns the
last stored metric of type `t` in storage order: a stored metric of type `t`
after which no stored metric has type `t`. -/
theorem getLatestMetric_last_stored_of_type (t : MetricType) (s : BrowserState) :
    (getLatestMetric t s = none ↔ ∀ m ∈ getHealthMetrics s, ¬ m.type = t) ∧
    (∀ m, getLatestMetric t s = some m →
      m.type = t ∧ ∃ l₁ l₂, getHealthMetrics s = l₁ ++ m :: l₂ ∧ ∀ x ∈ l₂, ¬ x.type = t) := by
  have hgl : getLatestMetric t s =
      if ((getHealthMetrics s).filter (fun m => m.type = t)).length > 0
      then ((getHealthMetrics s).filter (fun m => m.type = t)).getLast?
      else none := rfl
  constructor
  · rw [hgl]
    by_cases hF : ((getHealthMetrics s).filter (fun m => m.type = t)).length > 0
    · rw [if_pos hF]
      constructor
      · intro h
        rw [List.getLast?_eq_none_iff] at h
        rw [h] at hF
        simp at hF
      · intro hall
        exfalso
        have hnil : (getHealthMetrics s).filter (fun m => m.type = t) = [] := by
          rw [List.filter_eq_nil_iff]
          intro a ha
          simp [hall a ha]
        rw [hnil] at hF
        simp at hF
    · rw [if_neg hF]
      constructor
      · intro _ m hm hmt
        have hmem : m ∈ (getHealthMetrics s).filter (fun m => m.type = t) :=
          List.mem_filter.2 ⟨hm, by simp [hmt]⟩
        have hlen : 0 < ((getHealthMetrics s).filter (fun m => m.type = t)).length :=
          List.length_pos.2 (fun he => by rw [he] at hmem; cases hmem)
        exact hF hlen
      · intro _
        rfl
  · intro m hm
    rw [hgl] at hm
    by_cases hF : ((getHealthMetrics s).filter (fun m => m.type = t)).length > 0
    · rw [if_pos hF] at hm
      obtain ⟨hpm, l₁, l₂, hdec, hl₂⟩ :=
        filter_getLast?_decomp (fun m => m.type = t) (getHealthMetrics s) m hm
      refine ⟨by simpa using hpm, l₁, l₂, hdec, ?_⟩
      intro x hx
      simpa using hl₂ x hx
    · rw [if_neg hF] at hm
      cases hm

/-- Witness for the amended C1 theorem at concrete inputs. -/
theorem getLatestMetric_last_stored_of_type_witness :
    getLatestMetric MetricType.heart_rate latestWitnessState = none ∧
    latestWitnessMetric.type = MetricType.steps :=
  ⟨(getLatestMetric_last_stored_of_type MetricType.heart_rate latestWitnessState).1.2 (by decide),
   ((getLatestMetric_last_stored_of_type MetricType.steps latestWitnessState).2
      latestWitnessMetric (by decide)).1⟩

/-- Claim C2: `updateGoal id u` returns `null` and leaves the state unchanged
when no stored goal has the given id; when one exists, the first stored goal
with that id is replaced in place by the merge of `u` onto it, that merged
goal is returned, and every goal before and after it is unchanged. -/
theorem updateGoal_correct (id : String) (u : GoalUpdates) (s : BrowserState) :
    ((∀ g ∈ getGoals s, ¬ g.id = id) → updateGoal id u s = (none, s)) ∧
    ((∃ g ∈ getGoals s, g.id = id) →
      ∃ l₁ g₀ l₂, getGoals s = l₁ ++ g₀ :: l₂ ∧ g₀.id = id ∧ (∀ x ∈ l₁, ¬ x.id = id) ∧
        (updateGoal id u s).fst = some (mergeGoal g₀ u) ∧
        getGoals (updateGoal id u s).snd = l₁ ++ mergeGoal g₀ u :: l₂) := by
  constructor
  · intro hall
    have hfidx : (getGoals s).findIdx? (fun goal : Goal => goal.id = id) = none :=
      List.findIdx?_eq_none_iff.2 (fun x hx => by simp [hall x hx])
    simp [updateGoal, hfidx]
  · rintro ⟨g, hg, hgid⟩
    obtain ⟨l₁, g₀, l₂, hdec, h1, h2⟩ :=
      exists_first_match (fun goal : Goal => goal.id = id) (getGoals s) g hg (by simp [hgid])
    have h1' : g₀.id = id := by simpa using h1
    have h2' : ∀ x ∈ l₁, ¬ x.id = id := fun x hx => by simpa using h2 x hx
    obtain ⟨ha, hb⟩ := updateGoal_eq_of_decomp s id u l₁ g₀ l₂ hdec h2' h1'
    exact ⟨l₁, g₀, l₂, hdec, h1', h2', ha, hb⟩

/-- Witness for the C2 theorem at a concrete input with no matching goal. -/
theorem updateGoal_correct_witness :
    updateGoal "nope" updatesW goalsState = (none, goalsState) :=
  (updateGoal_correct "nope" updatesW goalsState).1 (by decide)

/-- Claim C3: `deleteGoal id` returns `true` exactly when some stored goal has
the given id; on `true` the stored list afterwards is the original list with
exactly the goals of that id removed (original order kept), and on `false`
the state is unchanged. -/
theorem deleteGoal_correct (id : String) (s : BrowserState) :
    ((deleteGoal id s).fst = true ↔ ∃ g ∈ getGoals s, g.id = id) ∧
    ((deleteGoal id s).fst = false → deleteGoal id s = (false, s)) ∧
    ((deleteGoal id s).fst = true →
      getGoals (deleteGoal id s).snd = (getGoals s).filter (fun g => ¬ g.id = id)) := by
  have hdg : deleteGoal id s =
      if ((getGoals s).filter (fun goal => ¬ goal.id = id)).length = (getGoals s).length
      then (false, s)
      else (true, saveGoals s ((getGoals s).filter (fun goal => ¬ goal.id = id))) := rfl
  by_cases hlen :
      ((getGoals s).filter (fun goal => ¬ goal.id = id)).length = (getGoals s).length
  · rw [hdg, if_pos hlen]
    have hall : ∀ x ∈ getGoals s, ¬ x.id = id := by
      intro x hx
      have := (filter_length_eq_iff _ _).1 hlen x hx
      simpa using this
    refine ⟨⟨fun h => by simp at h, ?_⟩, fun _ => rfl, fun h => by simp at h⟩
    rintro ⟨g, hg, hgid⟩
    exact absurd hgid (hall g hg)
  · rw [hdg, if_neg hlen]
    have hw : s.windowDefined = true := by
      by_contra hw
      rw [Bool.not_eq_true] at hw
      have hnil : getGoals s = [] := by simp [getGoals, hw]
      rw [hnil] at hlen
      simp at hlen
    have hex : ∃ g ∈ getGoals s, g.id = id := by
      by_contra hne
      push_neg at hne
      apply hlen
      apply (filter_length_eq_iff _ _).2
      intro x hx
      simp [hne x hx]
    exact ⟨⟨fun _ => hex, fun _ => rfl⟩, fun h => by simp at h,
      fun _ => getGoals_saveGoals s _ hw⟩

/-- Witness for the C3 theorem at concrete inputs: a miss leaves the state
unchanged, a hit on a duplicated id removes both goals carrying it. -/
theorem deleteGoal_correct_witness :
    deleteGoal "zz" goalsState = (false, goalsState) ∧
    getGoals (deleteGoal "g2" goalsState).snd = [goalA] :=
  ⟨(deleteGoal_correct "zz" goalsState).2.1 (by decide),
   ((deleteGoal_correct "g2" goalsState).2.2 (by decide)).trans (by decide)⟩

lemma count_filter_neg {α : Type _} [DecidableEq α] (p : α → Bool) (l : List α) (a : α)
    (h : p a = false) : (l.filter p).count a = 0 := by
  rw [List.count_eq_zero]
  intro hmem
  rw [(List.mem_filter.1 hmem).2] at h
  cases h

/-- Claim C4: `getTodaysNutrition` returns exactly the stored nutrition
entries dated today and `getTodaysActivities` exactly the stored activities
dated today, each with its stored multiplicity and in stored order
(a sublist of the store). -/
theorem todaysEntries_correct (today : String) (s : BrowserState) :
    (getTodaysNutrition today s).Sublist (getNutritionEntries s) ∧
    (∀ e : NutritionEntry, (getTodaysNutrition today s).count e =
      if e.date = today then (getNutritionEntries s).count e else 0) ∧
    (getTodaysActivities today s).Sublist (getActivities s) ∧
    (∀ a : Activity, (getTodaysActivities today s).count a =
      if a.date = today then (getActivities s).count a else 0) := by
  refine ⟨List.filter_sublist _, ?_, List.filter_sublist _, ?_⟩
  · intro e
    by_cases he : e.date = today
    · rw [if_pos he]
      exact List.count_filter (by simp [he])
    · rw [if_neg he]
      exact count_filter_neg _ _ _ (by simp [he])
  · intro a
    by_cases ha : a.date = today
    · rw [if_pos ha]
      exact List.count_filter (by simp [ha])
    · rw [if_neg ha]
      exact count_filter_neg _ _ _ (by simp [ha])

def noWindowState : BrowserState :=
  { windowDefined := false, healthMetricsStore := [cexMetricNewest],
    nutritionEntriesStore := [], activitiesStore := [], goalsStore := [goalA] }

def metricInputW : HealthMetricInput :=
  { date := "2024-02-01", value := 71, type := MetricType.weight, unit := "kg" }

/-- Claim C5: with no browser window, every read returns the empty array and
every write leaves the state untouched (all operations are total, so none can
throw). -/
theorem storageUnavailable_safe (s : BrowserState) (h : s.windowDefined = false) :
    getHealthMetrics s = [] ∧ getNutritionEntries s = [] ∧ getActivities s = [] ∧
    getGoals s = [] ∧
    (∀ newId m, (addHealthMetric newId m s).snd = s) ∧
    (∀ newId e, (addNutritionEntry newId e s).snd = s) ∧
    (∀ newId a, (addActivity newId a s).snd = s) ∧
    (∀ newId nowISO g, (addGoal newId nowISO g s).snd = s) ∧
    (∀ id u, (updateGoal id u s).snd = s) ∧
    (∀ id, (deleteGoal id s).snd = s) ∧
    (∀ env, generateSampleData env s = s) := by
  have hgnil : getGoals s = [] := by simp [getGoals, h]
  refine ⟨by simp [getHealthMetrics, h], by simp [getNutritionEntries, h],
    by simp [getActivities, h], hgnil, ?_, ?_, ?_, ?_, ?_, ?_, ?_⟩
  · intro newId m
    simp [addHealthMetric, saveHealthMetrics, h]
  · intro newId e
    simp [addNutritionEntry, saveNutritionEntries, h]
  · intro newId a
    simp [addActivity, saveActivities, h]
  · intro newId nowISO g
    simp [addGoal, saveGoals, h]
  · intro id u
    simp [updateGoal, hgnil]
  · intro id
    simp [deleteGoal, hgnil]
  · intro env
    simp [generateSampleData, saveHealthMetrics, saveActivities, saveNutritionEntries,
      saveGoals, h]

/-- Witness for the C5 theorem at a concrete window-less state with nonempty
underlying stores. -/
theorem storageUnavailable_safe_witness :
    getHealthMetrics noWindowState = [] ∧ getGoals noWindowState = [] ∧
    (addHealthMetric "id0" metricInputW noWindowState).snd = noWindowState ∧
    (deleteGoal "g1" noWindowState).snd = noWindowState := by
  have h := storageUnavailable_safe noWindowState rfl
  exact ⟨h.1, h.2.2.2.1, h.2.2.2.2.1 "id0" metricInputW, h.2.2.2.2.2.2.2.2.2.1 "g1"⟩

lemma saveGoals_frame (s : BrowserState) (l : List Goal) :
    (saveGoals s l).healthMetricsStore = s.healthMetricsStore ∧
    (saveGoals s l).nutritionEntriesStore = s.nutritionEntriesStore ∧
    (saveGoals s l).activitiesStore = s.activitiesStore := by
  by_cases hw : s.windowDefined <;> simp [saveGoals, hw]

lemma updateGoal_snd_cases (id : String) (u : GoalUpdates) (s : BrowserState) :
    (updateGoal id u s).snd = s ∨ ∃ l, (updateGoal id u s).snd = saveGoals s l := by
  cases hf : (getGoals s).findIdx? (fun goal : Goal => goal.id = id) with
  | none => left; simp [updateGoal, hf]
  | some i =>
      right
      exact ⟨(getGoals s).set i (mergeGoal ((getGoals s).getD i default) u),
        by simp [updateGoal, hf, List.getD]⟩

lemma deleteGoal_snd_cases (id : String) (s : BrowserState) :
    (deleteGoal id s).snd = s ∨ ∃ l, (deleteGoal id s).snd = saveGoals s l := by
  have hdg : deleteGoal id s =
      if ((getGoals s).filter (fun goal => ¬ goal.id = id)).length = (getGoals s).length
      then (false, s)
      else (true, saveGoals s ((getGoals s).filter (fun goal => ¬ goal.id = id))) := rfl
  by_cases hc :
      ((getGoals s).filter (fun goal => ¬ goal.id = id)).length = (getGoals s).length
  · left; rw [hdg, if_pos hc]
  · right; exact ⟨_, by rw [hdg, if_neg hc]⟩

/-- Claim C6: the four storage keys are pairwise distinct strings, and every
CRUD operation on one record type leaves the stored collections of the other
three record types unchanged. -/
theorem storage_keys_isolated :
    ((HEALTH_METRICS_KEY == NUTRITION_ENTRIES_KEY) = false ∧
     (HEALTH_METRICS_KEY == ACTIVITIES_KEY) = false ∧
     (HEALTH_METRICS_KEY == GOALS_KEY) = false ∧
     (NUTRITION_ENTRIES_KEY == ACTIVITIES_KEY) = false ∧
     (NUTRITION_ENTRIES_KEY == GOALS_KEY) = false ∧
     (ACTIVITIES_KEY == GOALS_KEY) = false) ∧
    (∀ s newId m,
      (addHealthMetric newId m s).snd.nutritionEntriesStore = s.nutritionEntriesStore ∧
      (addHealthMetric newId m s).snd.activitiesStore = s.activitiesStore ∧
      (addHealthMetric newId m s).snd.goalsStore = s.goalsStore) ∧
    (∀ s newId e,
      (addNutritionEntry newId e s).snd.healthMetricsStore = s.healthMetricsStore ∧
      (addNutritionEntry newId e s).snd.activitiesStore = s.activitiesStore ∧
      (addNutritionEntry newId e s).snd.goalsStore = s.goalsStore) ∧
    (∀ s newId a,
      (addActivity newId a s).snd.healthMetricsStore = s.healthMetricsStore ∧
      (addActivity newId a s).snd.nutritionEntriesStore = s.nutritionEntriesStore ∧
      (addActivity newId a s).snd.goalsStore = s.goalsStore) ∧
    (∀ s newId nowISO g,
      (addGoal newId nowISO g s).snd.healthMetricsStore = s.healthMetricsStore ∧
      (addGoal newId nowISO g s).snd.nutritionEntriesStore = s.nutritionEntriesStore ∧
      (addGoal newId nowISO g s).snd.activitiesStore = s.activitiesStore) ∧
    (∀ s id u,
      (updateGoal id u s).snd.healthMetricsStore = s.healthMetricsStore ∧
      (updateGoal id u s).snd.nutritionEntriesStore = s.nutritionEntriesStore ∧
      (updateGoal id u s).snd.activitiesStore = s.activitiesStore) ∧
    (∀ s id,
      (deleteGoal id s).snd.healthMetricsStore = s.healthMetricsStore ∧
      (deleteGoal id s).snd.nutritionEntriesStore = s.nutritionEntriesStore ∧
      (deleteGoal id s).snd.activitiesStore = s.activitiesStore) := by
  refine ⟨by decide, ?_, ?_, ?_, ?_, ?_, ?_⟩
  · intro s newId m
    by_cases hw : s.windowDefined <;> simp [addHealthMetric, saveHealthMetrics, hw]
  · intro s newId e
    by_cases hw : s.windowDefined <;> simp [addNutritionEntry, saveNutritionEntries, hw]
  · intro s newId a
    by_cases hw : s.windowDefined <;> simp [addActivity, saveActivities, hw]
  · intro s newId nowISO g
    by_cases hw : s.windowDefined <;> simp [addGoal, saveGoals, hw]
  · intro s id u
    rcases updateGoal_snd_cases id u s with hc | ⟨l, hc⟩
    · rw [hc]; exact ⟨rfl, rfl, rfl⟩
    · rw [hc]; exact saveGoals_frame s l
  · intro s id
    rcases deleteGoal_snd_cases id s with hc | ⟨l, hc⟩
    · rw [hc]; exact ⟨rfl, rfl, rfl⟩
    · rw [hc]; exact saveGoals_frame s l

lemma generateSampleData_eq (env : SampleEnv) (s : BrowserState)
    (hw : s.windowDefined = true) :
    generateSampleData env s =
      { windowDefined := true, healthMetricsStore := sampleMetrics env,
        nutritionEntriesStore := sampleNutrition env,
        activitiesStore := sampleActivities env, goalsStore := sampleGoals env } := by
  obtain ⟨w, ms, ns, acts, gs⟩ := s
  cases w
  · simp at hw
  · rfl

lemma mem_sampleDays_of_lt (d : ℕ) (hd : d < 7) : d ∈ sampleDays := by
  interval_cases d <;> decide

lemma lt_of_mem_sampleDays : ∀ i ∈ sampleDays, i < 7 := by decide

lemma sampleDays_nodup : sampleDays.Nodup := by decide

lemma sampleMetricsOfDay_dates (env : SampleEnv) (i : ℕ) :
    ∀ x ∈ sampleMetricsOfDay env i, x.date = env.dateOf i := by
  intro x hx
  simp only [sampleMetricsOfDay, List.mem_cons, List.not_mem_nil, or_false] at hx
  rcases hx with rfl | rfl | rfl <;> rfl

lemma sampleNutritionOfDay_dates (env : SampleEnv) (i : ℕ) :
    ∀ x ∈ sampleNutritionOfDay env i, x.date = env.dateOf i := by
  intro x hx
  simp only [sampleNutritionOfDay, List.mem_cons, List.not_mem_nil, or_false] at hx
  rcases hx with rfl | rfl | rfl <;> rfl

lemma sampleActivitiesOfDay_dates (env : SampleEnv) (i : ℕ) :
    ∀ x ∈ sampleActivitiesOfDay env i, x.date = env.dateOf i := by
  intro x hx
  by_cases hr : (3 : ℚ) / 10 < (env.rnd i).activityR
  · simp only [sampleActivitiesOfDay, if_pos hr, List.mem_cons, List.not_mem_nil,
      or_false] at hx
    subst hx
    rfl
  · simp [sampleActivitiesOfDay, if_neg hr] at hx

/-- Claim C7: `generateSampleData` fills all four collections with seed data
for the last seven days: 21 health metrics and 21 nutrition entries overall,
and per day exactly the three metrics weight/steps/sleep (in that order),
exactly the three meals breakfast/lunch/dinner, at most one activity, with
exactly two goals.  `hinj` states that the seven generated day strings are
distinct (distinct calendar days have distinct ISO dates). -/
theorem generateSampleData_correct (env : SampleEnv) (s : BrowserState)
    (hw : s.windowDefined = true)
    (hinj : ∀ i, i < 7 → ∀ j, j < 7 → env.dateOf i = env.dateOf j → i = j) :
    (getHealthMetrics (generateSampleData env s)).length = 21 ∧
    (getNutritionEntries (generateSampleData env s)).length = 21 ∧
    (getGoals (generateSampleData env s)).length = 2 ∧
    (∀ d, d < 7 →
      ((getHealthMetrics (generateSampleData env s)).filter
          (fun m => m.date = env.dateOf d)).map HealthMetric.type =
        [MetricType.weight, MetricType.steps, MetricType.sleep_hours] ∧
      ((getNutritionEntries (generateSampleData env s)).filter
          (fun e => e.date = env.dateOf d)).map NutritionEntry.meal =
        [Meal.breakfast, Meal.lunch, Meal.dinner] ∧
      ((getActivities (generateSampleData env s)).filter
          (fun a => a.date = env.dateOf d)).length ≤ 1) := by
  have he := generateSampleData_eq env s hw
  have hms : getHealthMetrics (generateSampleData env s) = sampleMetrics env := by
    rw [he]; rfl
  have hns : getNutritionEntries (generateSampleData env s) = sampleNutrition env := by
    rw [he]; rfl
  have has : getActivities (generateSampleData env s) = sampleActivities env := by
    rw [he]; rfl
  have hgs : getGoals (generateSampleData env s) = sampleGoals env := by
    rw [he]; rfl
  rw [hms, hns, has, hgs]
  have hinjm : ∀ i ∈ sampleDays, ∀ j ∈ sampleDays, env.dateOf i = env.dateOf j → i = j :=
    fun i hi j hj =>
      hinj i (lt_of_mem_sampleDays i hi) j (lt_of_mem_sampleDays j hj)
  refine ⟨rfl, rfl, rfl, ?_⟩
  intro d hd
  have hmem : d ∈ sampleDays := mem_sampleDays_of_lt d hd
  refine ⟨?_, ?_, ?_⟩
  · rw [sampleMetrics,
      filter_flatMap_day HealthMetric.date (sampleMetricsOfDay env) env.dateOf sampleDays d
        hmem sampleDays_nodup (fun i _ => sampleMetricsOfDay_dates env i) hinjm]
    rfl
  · rw [sampleNutrition,
      filter_flatMap_day NutritionEntry.date (sampleNutritionOfDay env) env.dateOf sampleDays d
        hmem sampleDays_nodup (fun i _ => sampleNutritionOfDay_dates env i) hinjm]
    rfl
  · rw [sampleActivities,
      filter_flatMap_day Activity.date (sampleActivitiesOfDay env) env.dateOf sampleDays d
        hmem sampleDays_nodup (fun i _ => sampleActivitiesOfDay_dates env i) hinjm]
    by_cases hr : (3 : ℚ) / 10 < (env.rnd d).activityR
    · simp [sampleActivitiesOfDay, if_pos hr]
    · simp [sampleActivitiesOfDay, if_neg hr]

def mealRandW : MealRand :=
  { foodIdx := 0, caloriesR := 0, proteinR := 0, carbsR := 0, fatR := 0 }

def dayRandW : DayRand :=
  { weightR := 0, stepsR := 0, sleepR := 0, activityR := 1 / 2, activityTypeIdx := 0,
    durationR := 0, activityCalR := 0, breakfastR := mealRandW, lunchR := mealRandW,
    dinnerR := mealRandW }

def envW : SampleEnv :=
  { dateOf := fun i => toString i, freshId := fun _ => "uuid", rnd := fun _ => dayRandW,
    nowISO := "2024-01-08T00:00:00.000Z", deadline90 := "2024-04-07",
    deadline30 := "2024-02-07" }

def dashWitnessStateA : BrowserState :=
  { windowDefined := true, healthMetricsStore := [cexMetricNewest],
    nutritionEntriesStore := [], activitiesStore := [], goalsStore := [goalA] }

def dashWitnessStateB : BrowserState :=
  { windowDefined := true, healthMetricsStore := [], nutritionEntriesStore := [],
    activitiesStore := [], goalsStore := [goalA] }

/-- Witness for the C7 theorem at a concrete environment and state. -/
theorem generateSampleData_correct_witness :
    (getHealthMetrics (generateSampleData envW dashWitnessStateB)).length = 21 ∧
    (getNutritionEntries (generateSampleData envW dashWitnessStateB)).length = 21 ∧
    (getGoals (generateSampleData envW dashWitnessStateB)).length = 2 := by
  have h := generateSampleData_correct envW dashWitnessStateB rfl (by decide)
  exact ⟨h.1, h.2.1, h.2.2.1⟩

/-- Claim C8: with storage available, each of the four add operations appends
exactly one record to its stored list and returns that record: the input
fields unchanged plus the freshly generated id (and, for `addGoal`, the
current timestamp as `createdAt`). -/
theorem add_operations_append (s : BrowserState) (hw : s.windowDefined = true) :
    (∀ newId (m : HealthMetricInput),
      getHealthMetrics (addHealthMetric newId m s).snd =
        getHealthMetrics s ++ [(addHealthMetric newId m s).fst] ∧
      (addHealthMetric newId m s).fst =
        { id := newId, date := m.date, value := m.value, type := m.type,
          unit := m.unit }) ∧
    (∀ newId (e : NutritionEntryInput),
      getNutritionEntries (addNutritionEntry newId e s).snd =
        getNutritionEntries s ++ [(addNutritionEntry newId e s).fst] ∧
      (addNutritionEntry newId e s).fst =
        { id := newId, date := e.date, meal := e.meal, food := e.food,
          calories := e.calories, protein := e.protein, carbs := e.carbs,
          fat := e.fat }) ∧
    (∀ newId (a : ActivityInput),
      getActivities (addActivity newId a s).snd =
        getActivities s ++ [(addActivity newId a s).fst] ∧
      (addActivity newId a s).fst =
        { id := newId, date := a.date, type := a.type, duration := a.duration,
          calories := a.calories, notes := a.notes }) ∧
    (∀ newId nowISO (g : GoalInput),
      getGoals (addGoal newId nowISO g s).snd =
        getGoals s ++ [(addGoal newId nowISO g s).fst] ∧
      (addGoal newId nowISO g s).fst =
        { id := newId, title := g.title, type := g.type, target := g.target,
          current := g.current, unit := g.unit, deadline := g.deadline,
          createdAt := nowISO }) := by
  refine ⟨?_, ?_, ?_, ?_⟩
  · intro newId m
    exact ⟨by simp [addHealthMetric, getHealthMetrics, saveHealthMetrics, hw], rfl⟩
  · intro newId e
    exact ⟨by simp [addNutritionEntry, getNutritionEntries, saveNutritionEntries, hw], rfl⟩
  · intro newId a
    exact ⟨by simp [addActivity, getActivities, saveActivities, hw], rfl⟩
  · intro newId nowISO g
    exact ⟨by simp [addGoal, getGoals, saveGoals, hw], rfl⟩

/-- Witness for the C8 theorem at a concrete state and input. -/
theorem add_operations_append_witness :
    getHealthMetrics (addHealthMetric "id0" metricInputW goalsState).snd =
      getHealthMetrics goalsState ++ [(addHealthMetric "id0" metricInputW goalsState).fst] :=
  ((add_operations_append goalsState rfl).1 "id0" metricInputW).1

/-- Claim C9: `updateGoal` merges the whole updates object onto the first
stored goal whose id matches, so an `id` or `createdAt` present in the
updates overwrites the stored goal's `id` or `createdAt`; goals after the
first match — duplicates of the id included — are left unchanged. -/
theorem updateGoal_merges_all_fields_first_match (s : BrowserState) (id : String)
    (u : GoalUpdates) (l₁ : List Goal) (g₀ : Goal) (l₂ : List Goal)
    (hdec : getGoals s = l₁ ++ g₀ :: l₂) (hfirst : ∀ x ∈ l₁, ¬ x.id = id)
    (hmatch : g₀.id = id) :
    (updateGoal id u s).fst = some (mergeGoal g₀ u) ∧
    getGoals (updateGoal id u s).snd = l₁ ++ mergeGoal g₀ u :: l₂ ∧
    (mergeGoal g₀ u).id = u.id.getD g₀.id ∧
    (mergeGoal g₀ u).createdAt = u.createdAt.getD g₀.createdAt := by
  obtain ⟨ha, hb⟩ := updateGoal_eq_of_decomp s id u l₁ g₀ l₂ hdec hfirst hmatch
  exact ⟨ha, hb, rfl, rfl⟩

/-- Witness for the C9 theorem: in `goalsState` two goals share id `g2`; the
first (`goalB`) is merged — its id becomes `fresh`, its `createdAt` the
update's timestamp — and the duplicate `goalB2` stays untouched. -/
theorem updateGoal_merges_all_fields_first_match_witness :
    (updateGoal "g2" updatesW goalsState).fst = some (mergeGoal goalB updatesW) ∧
    getGoals (updateGoal "g2" updatesW goalsState).snd =
      [goalA] ++ mergeGoal goalB updatesW :: [goalB2] ∧
    (mergeGoal goalB updatesW).id = "fresh" ∧
    (mergeGoal goalB updatesW).createdAt = "2024-03-01" := by
  have h := updateGoal_merges_all_fields_first_match goalsState "g2" updatesW
    [goalA] goalB [goalB2] (by decide) (by decide) (by decide)
  exact ⟨h.1, h.2.1, h.2.2.1.trans (by decide), h.2.2.2.trans (by decide)⟩

/-- Claim C10: on dashboard load (with a browser window), sample data is
generated exactly when the stored health-metrics collection is empty, and the
generation overwrites all four stored collections with the sample data —
whatever nutrition entries, activities or goals were stored before. -/
theorem dashboardInit_correct (env : SampleEnv) (s : BrowserState)
    (hw : s.windowDefined = true) :
    (getHealthMetrics s ≠ [] → dashboardInit env s = s) ∧
    (getHealthMetrics s = [] →
      dashboardInit env s =
        { windowDefined := true, healthMetricsStore := sampleMetrics env,
          nutritionEntriesStore := sampleNutrition env,
          activitiesStore := sampleActivities env, goalsStore := sampleGoals env }) := by
  constructor
  · intro hne
    have hlen : ¬ (getHealthMetrics s).length = 0 := fun h0 =>
      hne (List.length_eq_zero.1 h0)
    simp [dashboardInit, hlen]
  · intro hnil
    have hlen : (getHealthMetrics s).length = 0 := by rw [hnil]; rfl
    have hd : dashboardInit env s = generateSampleData env s := by
      simp [dashboardInit, hlen]
    rw [hd]
    exact generateSampleData_eq env s hw

/-- Witness for the C10 theorem: a state with existing metrics is untouched;
a state with no metrics but a stored goal has its goals collection replaced
by the sample goals. -/
theorem dashboardInit_correct_witness :
    dashboardInit envW dashWitnessStateA = dashWitnessStateA ∧
    (dashboardInit envW dashWitnessStateB).goalsStore = sampleGoals envW := by
  refine ⟨(dashboardInit_correct envW dashWitnessStateA rfl).1 (by decide), ?_⟩
  rw [(dashboardInit_correct envW dashWitnessStateB rfl).2 rfl]
